import Mathlib

set_option maxRecDepth 16384

/-!
Shallow embedding of the movie-catalog program (`src/lib.py`) and proofs of
its specification claims.

Modelling conventions:
* The SQLite table `movies` is a `Store`: a list of rows in rowid order plus
  the next auto-assigned id (AUTOINCREMENT counter).
* Python floats (ratings) are modelled as exact rationals `Rat`; every rating
  compared in the claims (1.0, 10.0, 0.99, 10.01, 8.8, 9.0) keeps the same
  order relative to the bounds 1.0 and 10.0 under this modelling.
* The `rating` column has no NOT NULL constraint in `create_table`, so a
  stored rating is `Option Rat` (`none` is SQL NULL); the other columns are
  NOT NULL and are modelled by plain types.
* Console input values are modelled post-parse (the interactive prompts and
  int/float parsing are I/O plumbing; an empty input line becomes `none`).
* SQLite's default LIKE is case-insensitive for the ASCII letters A-Z and
  case-sensitive elsewhere; `%` and `_` are wildcards.
-/

/-- A row of the `movies` table created by `create_table` (src/lib.py:19-31):
`id INTEGER PRIMARY KEY AUTOINCREMENT`, `title/director/genre TEXT NOT NULL`,
`year INTEGER NOT NULL`, `rating REAL CHECK (rating >= 1.0 AND rating <= 10.0)`.
`rating` has no NOT NULL constraint, hence `Option Rat`. -/
structure Movie where
  id : Nat
  title : String
  director : String
  genre : String
  year : Int
  rating : Option Rat
deriving Repr, DecidableEq

/-- The persisted store: rows in rowid order plus the AUTOINCREMENT counter. -/
structure Store where
  records : List Movie
  nextId : Nat
deriving Repr, DecidableEq

/-- The SQLite CHECK constraint `rating >= 1.0 AND rating <= 10.0` of
`create_table` (src/lib.py:29). A NULL rating satisfies the CHECK (in SQL,
a CHECK that evaluates to NULL does not fail). -/
def ratingCheckOk : Option Rat → Bool
  | none => true
  | some r => decide ((1 : Rat) ≤ r ∧ r ≤ 10)

/-- ASCII-only lower-casing, as used by SQLite's default LIKE comparison:
only A-Z fold to a-z; every other character is left alone. -/
def asciiLower (c : Char) : Char :=
  if 65 ≤ c.toNat && c.toNat ≤ 90 then Char.ofNat (c.toNat + 32) else c

/-- Helper for the `%` wildcard: `likeTail f s` is true iff `f` accepts some
suffix of `s` (`%` consumes zero or more characters). -/
def likeTail (f : List Char → Bool) : List Char → Bool
  | [] => f []
  | c :: cs => f (c :: cs) || likeTail f cs

/-- SQLite LIKE pattern matching (no ESCAPE clause), as used by
`search_movies` (src/lib.py:101): `%` matches any sequence of characters,
`_` matches any single character, and ordinary characters compare
case-insensitively on ASCII letters only. -/
def likeMatch : List Char → List Char → Bool
  | [], s => s.isEmpty
  | p :: ps, s =>
    if p = '%' then likeTail (likeMatch ps) s
    else
      match s with
      | [] => false
      | c :: cs => (if p = '_' then true else asciiLower p == asciiLower c) && likeMatch ps cs

/-- The pattern `f'%{title}%'` built by `search_movies` (src/lib.py:101). -/
def likePattern (title : String) : List Char :=
  '%' :: title.data ++ ['%']

/-- `search_movies` (src/lib.py:95-111): with a falsy (empty) `title` runs
`SELECT * FROM movies` returning all rows; otherwise filters by
`title LIKE '%{title}%'`. Rows come back in stored (rowid) order. -/
def search_movies (st : Store) (title : String := "") : List Movie :=
  if title = "" then st.records
  else st.records.filter (fun m => likeMatch (likePattern title) m.title.data)

/-- Strictly case-sensitive LIKE matching. This definition follows the SPEC's
words for the search claim ("matching case-sensitively, with literal `%`/`_`
acting as wildcards"), not the source; it is compared with `likeMatch`. -/
def likeMatchCaseSensitive : List Char → List Char → Bool
  | [], s => s.isEmpty
  | p :: ps, s =>
    if p = '%' then likeTail (likeMatchCaseSensitive ps) s
    else
      match s with
      | [] => false
      | c :: cs => (if p = '_' then true else p == c) && likeMatchCaseSensitive ps cs

/-- The search operation as the SPEC claims it behaves (case-sensitive
matching); used only to refute the claim against `search_movies`. -/
def search_movies_spec (st : Store) (title : String := "") : List Movie :=
  if title = "" then st.records
  else st.records.filter (fun m => likeMatchCaseSensitive (likePattern title) m.title.data)

/-- `add_movie` (src/lib.py:114-136), modelled after the console inputs have
been read and parsed (`year = int(...)`, `rating = float(...)` succeeded):
if `not (1.0 <= rating <= 10.0)` it prints the range message and returns
without writing; otherwise it INSERTs a new row whose id is the fresh
AUTOINCREMENT value. The Bool is true iff a row was written. -/
def add_movie (st : Store) (title director genre : String) (year : Int)
    (rating : Rat) : Store × Bool :=
  if (1 : Rat) ≤ rating ∧ rating ≤ 10 then
    ({ records := st.records ++
        [{ id := st.nextId, title := title, director := director,
           genre := genre, year := year, rating := some rating }],
       nextId := st.nextId + 1 }, true)
  else (st, false)

/-- One element of the `movies.json` import document (src/lib.py:82-83):
`import_movies` reads `movie['title'] .. movie['rating']`; a JSON `null`
rating is the `none` case (an object missing a key altogether raises and
aborts the whole import, which is the `import` failure path, not modelled
row-by-row). -/
structure ImportRow where
  title : String
  director : String
  genre : String
  year : Int
  rating : Option Rat
deriving Repr, DecidableEq

/-- Rows inserted by `executemany` get consecutive fresh AUTOINCREMENT ids. -/
def assignIds (n : Nat) : List ImportRow → List Movie
  | [] => []
  | r :: rs =>
    { id := n, title := r.title, director := r.director, genre := r.genre,
      year := r.year, rating := r.rating } :: assignIds (n + 1) rs

/-- `import_movies` (src/lib.py:73-92), modelled from the parsed document
onward: the `executemany` INSERT runs inside a single `with conn`
transaction, so if any row violates the schema CHECK the whole batch rolls
back and the store is unchanged; otherwise every row is appended with a
fresh id. -/
def importRows (st : Store) (rows : List ImportRow) : Store :=
  if rows.all (fun r => ratingCheckOk r.rating) then
    { records := st.records ++ assignIds st.nextId rows,
      nextId := st.nextId + rows.length }
  else st

/-- One element of the exported JSON document (src/lib.py:243):
`dict(movie)` — all six columns, in schema order. -/
structure ExportRow where
  id : Nat
  title : String
  director : String
  genre : String
  year : Int
  rating : Option Rat
deriving Repr, DecidableEq

/-- `dict(movie)` for one row (src/lib.py:243). -/
def exportRow (m : Movie) : ExportRow :=
  { id := m.id, title := m.title, director := m.director, genre := m.genre,
    year := m.year, rating := m.rating }

/-- Re-reading an exported object as an import object: `import_movies` takes
the five non-id keys and ignores any other key (no `id` key is consumed). -/
def exportToImportRow (e : ExportRow) : ImportRow :=
  { title := e.title, director := e.director, genre := e.genre,
    year := e.year, rating := e.rating }

/-- The five-field identity of a record, as the round-trip claim compares
records: (title, director, genre, year, rating), ignoring id. -/
def keyTuple (m : Movie) : String × String × String × Int × Option Rat :=
  (m.title, m.director, m.genre, m.year, m.rating)

/-- Same five-field tuple read off an import row. -/
def rowTuple (r : ImportRow) : String × String × String × Int × Option Rat :=
  (r.title, r.director, r.genre, r.year, r.rating)

/-- The partial update collected by `modify_movie` (src/lib.py:153-175):
each field is present iff the corresponding console input was non-empty. -/
structure UpdateFields where
  title : Option String
  director : Option String
  genre : Option String
  year : Option Int
  rating : Option Rat
deriving Repr, DecidableEq

/-- The Python check `if update_fields:` — the dict is empty iff every input
was left blank. -/
def UpdateFields.isEmpty (u : UpdateFields) : Bool :=
  u.title.isNone && u.director.isNone && u.genre.isNone &&
    u.year.isNone && u.rating.isNone

/-- The rating validation of `modify_movie` (src/lib.py:168-171): if a new
rating was supplied and is out of [1.0, 10.0] the function prints the range
message and returns before updating. -/
def ratingUpdateBad (u : UpdateFields) : Bool :=
  match u.rating with
  | none => false
  | some r => !(decide ((1 : Rat) ≤ r ∧ r ≤ 10))

/-- Effect of `UPDATE movies SET {set_clause} WHERE id = ?` on one row:
exactly the supplied columns change; omitted columns keep their value. -/
def applyUpdate (u : UpdateFields) (m : Movie) : Movie :=
  { m with
    title := u.title.getD m.title,
    director := u.director.getD m.director,
    genre := u.genre.getD m.genre,
    year := u.year.getD m.year,
    rating := match u.rating with | some r => some r | none => m.rating }

/-- `modify_movie` (src/lib.py:139-190), modelled from the parsed inputs
onward: search by title; if no match report 查無資料; take the FIRST match
(`movie = movies[0]`); a supplied out-of-range rating aborts; an empty field
set is a no-op reporting 未作任何修改; otherwise UPDATE the row whose id is
the first match's id. The String is the printed message. -/
def modify_movie (st : Store) (filter : String) (u : UpdateFields) :
    Store × String :=
  match search_movies st filter with
  | [] => (st, "查無資料")
  | m :: _ =>
    if ratingUpdateBad u then (st, "評分需在 1.0 到 10.0 之間")
    else if u.isEmpty then (st, "未作任何修改")
    else
      ({ st with records :=
          st.records.map (fun r => if r.id = m.id then applyUpdate u r else r) },
       "資料已修改")

/-- The delete-by-ids path of `delete_movies` (src/lib.py:219-222): the ids
are collected from a prior search and each is removed by
`DELETE FROM movies WHERE id = ?`. -/
def delete_by_ids (st : Store) (ids : List Nat) : Store :=
  { st with records := st.records.filter (fun m => !(ids.contains m.id)) }

/-- The delete-all path of `delete_movies` (src/lib.py:201):
`DELETE FROM movies` (the AUTOINCREMENT sequence is not reset). -/
def delete_all (st : Store) : Store :=
  { st with records := [] }

/-- `unicodedata.east_asian_width(ch) in ('F', 'W', 'A')` (src/lib.py:38):
true iff the character's Unicode East-Asian-Width class is Fullwidth, Wide
or Ambiguous. The ranges below transcribe the F, W and A entries of the
Unicode EastAsianWidth table consulted by `unicodedata` (principal BMP and
supplementary ranges; ASCII and other narrow/neutral characters are absent
from the table and count as width 1). -/
def east_asian_wide (c : Char) : Bool :=
  let n := c.toNat
  -- Ambiguous (A): Latin-1 signs and letters, Greek, Cyrillic, punctuation,
  -- arrows, math, box drawing, enclosed alphanumerics, private use.
  (n = 0xA1) || (n = 0xA4) || (0xA7 ≤ n && n ≤ 0xA8) || (n = 0xAA) ||
  (0xAD ≤ n && n ≤ 0xAE) || (0xB0 ≤ n && n ≤ 0xB4) ||
  (0xB6 ≤ n && n ≤ 0xBA) || (0xBC ≤ n && n ≤ 0xBF) || (n = 0xC6) ||
  (n = 0xD0) || (0xD7 ≤ n && n ≤ 0xD8) || (0xDE ≤ n && n ≤ 0xE1) ||
  (n = 0xE6) || (0xE8 ≤ n && n ≤ 0xEA) || (0xEC ≤ n && n ≤ 0xED) ||
  (n = 0xF0) || (0xF2 ≤ n && n ≤ 0xF3) || (0xF7 ≤ n && n ≤ 0xFA) ||
  (n = 0xFC) || (n = 0xFE) || (n = 0x101) || (n = 0x111) || (n = 0x113) ||
  (n = 0x11B) || (0x126 ≤ n && n ≤ 0x127) || (n = 0x12B) ||
  (0x131 ≤ n && n ≤ 0x133) || (n = 0x138) || (0x13F ≤ n && n ≤ 0x142) ||
  (n = 0x144) || (0x148 ≤ n && n ≤ 0x14B) || (n = 0x14D) ||
  (0x152 ≤ n && n ≤ 0x153) || (0x166 ≤ n && n ≤ 0x167) || (n = 0x16B) ||
  (n = 0x1CE) || (n = 0x1D0) || (n = 0x1D2) || (n = 0x1D4) || (n = 0x1D6) ||
  (n = 0x1D8) || (n = 0x1DA) || (n = 0x1DC) || (n = 0x251) || (n = 0x261) ||
  (n = 0x2C4) || (n = 0x2C7) || (0x2C9 ≤ n && n ≤ 0x2CB) || (n = 0x2CD) ||
  (n = 0x2D0) || (0x2D8 ≤ n && n ≤ 0x2DB) || (n = 0x2DD) || (n = 0x2DF) ||
  (0x300 ≤ n && n ≤ 0x36F) || (0x391 ≤ n && n ≤ 0x3A1) ||
  (0x3A3 ≤ n && n ≤ 0x3A9) || (0x3B1 ≤ n && n ≤ 0x3C1) ||
  (0x3C3 ≤ n && n ≤ 0x3C9) || (n = 0x401) || (0x410 ≤ n && n ≤ 0x44F) ||
  (n = 0x451) ||
  (n = 0x2010) || (0x2013 ≤ n && n ≤ 0x2016) || (0x2018 ≤ n && n ≤ 0x2019) ||
  (0x201C ≤ n && n ≤ 0x201D) || (0x2020 ≤ n && n ≤ 0x2022) ||
  (0x2024 ≤ n && n ≤ 0x2027) || (n = 0x2030) || (0x2032 ≤ n && n ≤ 0x2033) ||
  (n = 0x2035) || (n = 0x203B) || (n = 0x203E) || (n = 0x2074) ||
  (n = 0x207F) || (0x2081 ≤ n && n ≤ 0x2084) || (n = 0x20AC) ||
  (n = 0x2103) || (n = 0x2105) || (n = 0x2109) || (n = 0x2113) ||
  (n = 0x2116) || (0x2121 ≤ n && n ≤ 0x2122) || (n = 0x2126) ||
  (n = 0x212B) || (0x2153 ≤ n && n ≤ 0x2154) ||
  (0x215B ≤ n && n ≤ 0x215E) || (0x2160 ≤ n && n ≤ 0x216B) ||
  (0x2170 ≤ n && n ≤ 0x2179) || (n = 0x2189) || (0x2190 ≤ n && n ≤ 0x2199) ||
  (0x21B8 ≤ n && n ≤ 0x21B9) || (n = 0x21D2) || (n = 0x21D4) ||
  (n = 0x21E7) || (n = 0x2200) || (0x2202 ≤ n && n ≤ 0x2203) ||
  (0x2207 ≤ n && n ≤ 0x2208) || (n = 0x220B) || (n = 0x220F) ||
  (n = 0x2211) || (n = 0x2215) || (n = 0x221A) ||
  (0x221D ≤ n && n ≤ 0x2220) || (n = 0x2223) || (n = 0x2225) ||
  (0x2227 ≤ n && n ≤ 0x222C) || (n = 0x222E) || (0x2234 ≤ n && n ≤ 0x2237) ||
  (0x223C ≤ n && n ≤ 0x223D) || (n = 0x2248) || (n = 0x224C) ||
  (n = 0x2252) || (0x2260 ≤ n && n ≤ 0x2261) || (0x2264 ≤ n && n ≤ 0x2267) ||
  (0x226A ≤ n && n ≤ 0x226B) || (0x226E ≤ n && n ≤ 0x226F) ||
  (0x2282 ≤ n && n ≤ 0x2283) || (0x2286 ≤ n && n ≤ 0x2287) ||
  (n = 0x2295) || (n = 0x2299) || (n = 0x22A5) || (n = 0x22BF) ||
  (n = 0x2312) || (0x2460 ≤ n && n ≤ 0x24E9) || (0x24EB ≤ n && n ≤ 0x254B) ||
  (0x2550 ≤ n && n ≤ 0x2573) || (0x2580 ≤ n && n ≤ 0x258F) ||
  (0x2592 ≤ n && n ≤ 0x2595) || (0x25A0 ≤ n && n ≤ 0x25A1) ||
  (0x25A3 ≤ n && n ≤ 0x25A9) || (0x25B2 ≤ n && n ≤ 0x25B3) ||
  (0x25B6 ≤ n && n ≤ 0x25B7) || (0x25BC ≤ n && n ≤ 0x25BD) ||
  (0x25C0 ≤ n && n ≤ 0x25C1) || (0x25C6 ≤ n && n ≤ 0x25C8) ||
  (n = 0x25CB) || (0x25CE ≤ n && n ≤ 0x25D1) || (0x25E2 ≤ n && n ≤ 0x25E5) ||
  (n = 0x25EF) || (0x2605 ≤ n && n ≤ 0x2606) || (n = 0x2609) ||
  (0x260E ≤ n && n ≤ 0x260F) || (n = 0x261C) || (n = 0x261E) ||
  (n = 0x2640) || (n = 0x2642) || (0x2660 ≤ n && n ≤ 0x2661) ||
  (0x2663 ≤ n && n ≤ 0x2665) || (0x2667 ≤ n && n ≤ 0x266A) ||
  (0x266C ≤ n && n ≤ 0x266D) || (n = 0x266F) || (0x269E ≤ n && n ≤ 0x269F) ||
  (n = 0x26BF) || (0x26C6 ≤ n && n ≤ 0x26CD) || (0x26CF ≤ n && n ≤ 0x26D3) ||
  (0x26D5 ≤ n && n ≤ 0x26E1) || (n = 0x26E3) || (0x26E8 ≤ n && n ≤ 0x26E9) ||
  (0x26EB ≤ n && n ≤ 0x26F1) || (n = 0x26F4) || (0x26F6 ≤ n && n ≤ 0x26F9) ||
  (0x26FB ≤ n && n ≤ 0x26FC) || (0x26FE ≤ n && n ≤ 0x26FF) || (n = 0x273D) ||
  (0x2776 ≤ n && n ≤ 0x277F) || (0x2B56 ≤ n && n ≤ 0x2B59) ||
  (0x3248 ≤ n && n ≤ 0x324F) || (0xE000 ≤ n && n ≤ 0xF8FF) ||
  (0xFE00 ≤ n && n ≤ 0xFE0F) || (n = 0xFFFD) ||
  (0x1F100 ≤ n && n ≤ 0x1F10A) || (0x1F110 ≤ n && n ≤ 0x1F12D) ||
  (0x1F130 ≤ n && n ≤ 0x1F169) || (0x1F170 ≤ n && n ≤ 0x1F18D) ||
  (0x1F18F ≤ n && n ≤ 0x1F190) || (0x1F19B ≤ n && n ≤ 0x1F1AC) ||
  (0xE0100 ≤ n && n ≤ 0xE01EF) || (0xF0000 ≤ n && n ≤ 0xFFFFD) ||
  (0x100000 ≤ n && n ≤ 0x10FFFD) ||
  -- Wide (W): Hangul Jamo, CJK radicals/symbols/kana/ideographs, Hangul
  -- syllables, compatibility ideographs, vertical/small forms, wide emoji,
  -- supplementary ideographic planes.
  (0x1100 ≤ n && n ≤ 0x115F) || (0x231A ≤ n && n ≤ 0x231B) ||
  (0x2329 ≤ n && n ≤ 0x232A) || (0x23E9 ≤ n && n ≤ 0x23EC) ||
  (n = 0x23F0) || (n = 0x23F3) || (0x25FD ≤ n && n ≤ 0x25FE) ||
  (0x2614 ≤ n && n ≤ 0x2615) || (0x2648 ≤ n && n ≤ 0x2653) ||
  (n = 0x267F) || (n = 0x2693) || (n = 0x26A1) ||
  (0x26AA ≤ n && n ≤ 0x26AB) || (0x26BD ≤ n && n ≤ 0x26BE) ||
  (0x26C4 ≤ n && n ≤ 0x26C5) || (n = 0x26CE) || (n = 0x26D4) ||
  (n = 0x26EA) || (0x26F2 ≤ n && n ≤ 0x26F3) || (n = 0x26F5) ||
  (n = 0x26FA) || (n = 0x26FD) || (n = 0x2705) ||
  (0x270A ≤ n && n ≤ 0x270B) || (n = 0x2728) || (n = 0x274C) ||
  (n = 0x274E) || (0x2753 ≤ n && n ≤ 0x2755) || (n = 0x2757) ||
  (0x2795 ≤ n && n ≤ 0x2797) || (n = 0x27B0) || (n = 0x27BF) ||
  (0x2B1B ≤ n && n ≤ 0x2B1C) || (n = 0x2B50) || (n = 0x2B55) ||
  (0x2E80 ≤ n && n ≤ 0x2E99) || (0x2E9B ≤ n && n ≤ 0x2EF3) ||
  (0x2F00 ≤ n && n ≤ 0x2FD5) || (0x2FF0 ≤ n && n ≤ 0x2FFB) ||
  (0x3001 ≤ n && n ≤ 0x303E) || (0x3041 ≤ n && n ≤ 0x3096) ||
  (0x3099 ≤ n && n ≤ 0x30FF) || (0x3105 ≤ n && n ≤ 0x312F) ||
  (0x3131 ≤ n && n ≤ 0x318E) || (0x3190 ≤ n && n ≤ 0x31E3) ||
  (0x31F0 ≤ n && n ≤ 0x321E) || (0x3220 ≤ n && n ≤ 0x3247) ||
  (0x3250 ≤ n && n ≤ 0x4DBF) || (0x4E00 ≤ n && n ≤ 0xA48C) ||
  (0xA490 ≤ n && n ≤ 0xA4C6) || (0xA960 ≤ n && n ≤ 0xA97C) ||
  (0xAC00 ≤ n && n ≤ 0xD7A3) || (0xF900 ≤ n && n ≤ 0xFAFF) ||
  (0xFE10 ≤ n && n ≤ 0xFE19) || (0xFE30 ≤ n && n ≤ 0xFE52) ||
  (0xFE54 ≤ n && n ≤ 0xFE66) || (0xFE68 ≤ n && n ≤ 0xFE6B) ||
  (0x16FE0 ≤ n && n ≤ 0x16FE4) || (0x17000 ≤ n && n ≤ 0x187F7) ||
  (0x18800 ≤ n && n ≤ 0x18CD5) || (0x1B000 ≤ n && n ≤ 0x1B152) ||
  (0x1B164 ≤ n && n ≤ 0x1B167) || (0x1B170 ≤ n && n ≤ 0x1B2FB) ||
  (n = 0x1F004) || (n = 0x1F0CF) || (n = 0x1F18E) ||
  (0x1F191 ≤ n && n ≤ 0x1F19A) || (0x1F200 ≤ n && n ≤ 0x1F202) ||
  (0x1F210 ≤ n && n ≤ 0x1F23B) || (0x1F240 ≤ n && n ≤ 0x1F248) ||
  (0x1F250 ≤ n && n ≤ 0x1F251) || (0x1F260 ≤ n && n ≤ 0x1F265) ||
  (0x1F300 ≤ n && n ≤ 0x1F320) || (0x1F32D ≤ n && n ≤ 0x1F335) ||
  (0x1F337 ≤ n && n ≤ 0x1F37C) || (0x1F37E ≤ n && n ≤ 0x1F393) ||
  (0x1F3A0 ≤ n && n ≤ 0x1F3CA) || (0x1F3CF ≤ n && n ≤ 0x1F3D3) ||
  (0x1F3E0 ≤ n && n ≤ 0x1F3F0) || (n = 0x1F3F4) ||
  (0x1F3F8 ≤ n && n ≤ 0x1F43E) || (n = 0x1F440) ||
  (0x1F442 ≤ n && n ≤ 0x1F4FC) || (0x1F4FF ≤ n && n ≤ 0x1F53D) ||
  (0x1F54B ≤ n && n ≤ 0x1F54E) || (0x1F550 ≤ n && n ≤ 0x1F567) ||
  (n = 0x1F57A) || (0x1F595 ≤ n && n ≤ 0x1F596) || (n = 0x1F5A4) ||
  (0x1F5FB ≤ n && n ≤ 0x1F64F) || (0x1F680 ≤ n && n ≤ 0x1F6C5) ||
  (n = 0x1F6CC) || (0x1F6D0 ≤ n && n ≤ 0x1F6D2) ||
  (0x1F6D5 ≤ n && n ≤ 0x1F6D7) || (0x1F6EB ≤ n && n ≤ 0x1F6EC) ||
  (0x1F6F4 ≤ n && n ≤ 0x1F6FC) || (0x1F7E0 ≤ n && n ≤ 0x1F7EB) ||
  (0x1F90C ≤ n && n ≤ 0x1F93A) || (0x1F93C ≤ n && n ≤ 0x1F945) ||
  (0x1F947 ≤ n && n ≤ 0x1F978) || (0x1F97A ≤ n && n ≤ 0x1F9CB) ||
  (0x1F9CD ≤ n && n ≤ 0x1F9FF) || (0x1FA70 ≤ n && n ≤ 0x1FA74) ||
  (0x1FA78 ≤ n && n ≤ 0x1FA7A) || (0x1FA80 ≤ n && n ≤ 0x1FA86) ||
  (0x1FA90 ≤ n && n ≤ 0x1FAA8) || (0x1FAB0 ≤ n && n ≤ 0x1FAB6) ||
  (0x1FAC0 ≤ n && n ≤ 0x1FAC2) || (0x1FAD0 ≤ n && n ≤ 0x1FAD6) ||
  (0x20000 ≤ n && n ≤ 0x2FFFD) || (0x30000 ≤ n && n ≤ 0x3FFFD) ||
  -- Fullwidth (F): ideographic space, fullwidth forms, fullwidth signs.
  (n = 0x3000) || (0xFF01 ≤ n && n ≤ 0xFF60) || (0xFFE0 ≤ n && n ≤ 0xFFE6)

/-- `get_display_width` (src/lib.py:34-42): each character counts 2 if its
East-Asian-Width class is F, W or A, else 1. -/
def get_display_width (s : String) : Nat :=
  s.data.foldl (fun w ch => w + if east_asian_wide ch then 2 else 1) 0

/-- `pad_string` (src/lib.py:45-48): appends `max(total_width - width, 0)`
spaces (never truncates). Python's `max(padding, 0)` on the possibly
negative int difference is exactly Nat truncated subtraction. -/
def pad_string (s : String) (total_width : Nat) : String :=
  s ++ String.mk (List.replicate (total_width - get_display_width s) ' ')

/-- The file system as seen by the export: path ↦ contents (Unicode text;
byte-level UTF-8 encoding is below the embedding). -/
def FileMap : Type := String → Option String

/-- `open(path, 'w')` + write: truncates/overwrites whatever was at `path`. -/
def setFile (fs : FileMap) (path content : String) : FileMap :=
  fun q => if q = path then some content else fs q

/-- `JSON_OUT_PATH` (src/lib.py:9). -/
def JSON_OUT_PATH : String := "exported.json"

/-- One escaped character of `json.dump` with `ensure_ascii=False`:
only `"` and `\` and control characters below U+0020 are escaped; every
other character — in particular every non-ASCII character — is emitted
literally. -/
def jsonEscapeChar (c : Char) : String :=
  if c = '"' then "\\\""
  else if c = '\\' then "\\\\"
  else if c = '\n' then "\\n"
  else if c = '\t' then "\\t"
  else if c = '\r' then "\\r"
  else if c = Char.ofNat 8 then "\\b"
  else if c = Char.ofNat 12 then "\\f"
  else if c.toNat < 32 then
    "\\u00" ++ String.mk [Nat.digitChar (c.toNat / 16), Nat.digitChar (c.toNat % 16)]
  else String.singleton c

/-- Escape a whole string character by character. -/
def escapeChars : List Char → List Char
  | [] => []
  | c :: cs => (jsonEscapeChar c).data ++ escapeChars cs

/-- JSON string body of `json.dump(..., ensure_ascii=False)`. -/
def jsonEscapeString (s : String) : String :=
  String.mk (escapeChars s.data)

/-- A JSON string literal. -/
def jsonStringLit (s : String) : String :=
  "\"" ++ jsonEscapeString s ++ "\""

/-- Pads a digit string with leading zeros to length `e`. -/
def leftPadZeros (s : String) (e : Nat) : String :=
  String.mk (List.replicate (e - s.length) '0') ++ s

/-- Python `repr` of a float, for the floats the program stores (modelled as
exact rationals): the shortest decimal expansion, with at least one digit on
each side of the point. Rationals with no finite decimal expansion do not
arise from parsed decimal input; they fall back to `toString`. -/
def renderRat (q : Rat) : String :=
  if q.den = 1 then toString q.num ++ ".0"
  else
    match (List.range 31).find? (fun e => 10 ^ e % q.den = 0) with
    | some e =>
        let n := q.num.natAbs * (10 ^ e / q.den)
        (if q.num < 0 then "-" else "") ++ toString (n / 10 ^ e) ++ "." ++
          leftPadZeros (toString (n % 10 ^ e)) e
    | none => toString q

/-- JSON rendering of the (nullable) rating column. -/
def renderRating : Option Rat → String
  | none => "null"
  | some q => renderRat q

/-- The key/value pairs of one exported JSON object, in `dict(movie)`
insertion order (src/lib.py:243): the six schema columns. -/
def exportRowFields (e : ExportRow) : List (String × String) :=
  [("id", toString e.id),
   ("title", jsonStringLit e.title),
   ("director", jsonStringLit e.director),
   ("genre", jsonStringLit e.genre),
   ("year", toString e.year),
   ("rating", renderRating e.rating)]

/-- One object of `json.dump(movies_list, f, ensure_ascii=False, indent=4)`. -/
def serializeObj (e : ExportRow) : String :=
  "    \x7b\n" ++
    String.intercalate ",\n"
      ((exportRowFields e).map (fun kv =>
        "        " ++ jsonStringLit kv.1 ++ ": " ++ kv.2)) ++
  "\n    \x7d"

/-- `json.dump(movies_list, f, ensure_ascii=False, indent=4)`
(src/lib.py:246): an indented JSON array of the exported objects. -/
def serializeExport (rows : List ExportRow) : String :=
  match rows with
  | [] => "[]"
  | _ => "[\n" ++ String.intercalate ",\n" (rows.map serializeObj) ++ "\n]"

/-- `export_movies` (src/lib.py:232-249): fetches the records via
`search_movies` (all records for the export-all choice, `title = ""`); if
none match it prints 查無資料 and writes nothing; otherwise it serializes
`[dict(movie) for movie in movies]` and overwrites `exported.json`. The
String is the printed message. -/
def export_movies (fs : FileMap) (st : Store) (title : String := "") :
    FileMap × String :=
  let movies := search_movies st title
  if movies = [] then (fs, "查無資料")
  else
    (setFile fs JSON_OUT_PATH (serializeExport (movies.map exportRow)),
     "電影資料已匯出至 exported.json")

/-- `xs` is an initial segment of `ys` (character-exact comparison). -/
def startsWithChars : List Char → List Char → Bool
  | [], _ => true
  | _ :: _, [] => false
  | a :: as, b :: bs => a == b && startsWithChars as bs

/-- `needle` occurs contiguously somewhere inside `hay`. -/
def containsChars : List Char → List Char → Bool
  | n, [] => startsWithChars n []
  | n, c :: cs => startsWithChars n (c :: cs) || containsChars n cs

/-- The filter string holds no LIKE wildcard character. -/
def noWildcards (xs : List Char) : Bool :=
  xs.all (fun c => !(c == '%') && !(c == '_'))

/-- A concrete store used for concrete evaluations: the spec's own example
record. -/
def inceptionMovie : Movie :=
  { id := 1, title := "Inception", director := "Nolan", genre := "Sci-Fi",
    year := 2010, rating := some 9 }

/-- A store holding just the example record. -/
def st1 : Store := { records := [inceptionMovie], nextId := 2 }

/-- A second record whose title also matches the filter "Incep". -/
def inceptionSequel : Movie :=
  { id := 2, title := "Inception 2", director := "Nolan", genre := "Sci-Fi",
    year := 2024, rating := none }

/-- A store in which the filter "Incep" matches two records. -/
def st2 : Store := { records := [inceptionMovie, inceptionSequel], nextId := 3 }

/-- A store holding a record with non-ASCII (CJK) text fields. -/
def cjkStore : Store :=
  { records := [{ id := 1, title := "盜夢空間", director := "諾蘭",
                  genre := "科幻", year := 2010, rating := some 9 }],
    nextId := 2 }

/-- An empty file system. -/
def emptyFs : FileMap := fun _ => none

/-- The store invariant the schema actually enforces on `rating`: every
stored rating is NULL or within [1.0, 10.0]. -/
def ratingInvariant (st : Store) : Prop :=
  ∀ m ∈ st.records, ratingCheckOk m.rating = true

lemma likeMatch_pct_any : ∀ s : List Char, likeMatch ['%'] s = true := by
  intro s
  induction s with
  | nil => rfl
  | cons c cs ih =>
    have h2 : likeMatch ['%'] (c :: cs) =
        (likeMatch [] (c :: cs) || likeMatch ['%'] cs) := rfl
    rw [h2, ih, Bool.or_true]

lemma likeMatch_lit_pct (X : List Char) (h : noWildcards X = true) :
    ∀ t : List Char,
      likeMatch (X ++ ['%']) t = startsWithChars (X.map asciiLower) (t.map asciiLower) := by
  induction X with
  | nil =>
    intro t
    simp [likeMatch_pct_any, startsWithChars]
  | cons x xs ih =>
    have hx : ¬(x = '%') ∧ ¬(x = '_') ∧ noWildcards xs = true := by
      simpa [noWildcards, List.all_cons, and_assoc] using h
    intro t
    cases t with
    | nil =>
      simp [likeMatch, hx.1, startsWithChars]
    | cons c cs =>
      simp [likeMatch, hx.1, hx.2.1, startsWithChars, ih hx.2.2 cs]

lemma likeMatch_pct_lit_pct (X : List Char) (h : noWildcards X = true) :
    ∀ t : List Char,
      likeMatch ('%' :: (X ++ ['%'])) t =
        containsChars (X.map asciiLower) (t.map asciiLower) := by
  intro t
  induction t with
  | nil =>
    show likeMatch (X ++ ['%']) [] = _
    simp [likeMatch_lit_pct X h, containsChars]
  | cons c cs ih =>
    have h2 : likeMatch ('%' :: (X ++ ['%'])) (c :: cs) =
        (likeMatch (X ++ ['%']) (c :: cs) || likeMatch ('%' :: (X ++ ['%'])) cs) := rfl
    rw [h2, ih, likeMatch_lit_pct X h]
    simp [containsChars]

/-- **C1** (corrected). `search("")`/`search()` return the full record set,
and for a non-empty wildcard-free filter `X`, `search(X)` returns exactly
the records whose title contains `X` as a substring under ASCII-case-folded
comparison (SQLite's default LIKE is case-insensitive for ASCII letters, not
case-sensitive as the claim stated); literal `%`/`_` in the filter act as
LIKE wildcards (middle conjunct, stated via the LIKE matcher itself). -/
theorem search_movies_correct (st : Store) (X : String) (m : Movie) :
    search_movies st = st.records ∧
    (X ≠ "" →
      (m ∈ search_movies st X ↔
        m ∈ st.records ∧ likeMatch (likePattern X) m.title.data = true)) ∧
    (X ≠ "" → noWildcards X.data = true →
      (m ∈ search_movies st X ↔
        m ∈ st.records ∧
          containsChars (X.data.map asciiLower) (m.title.data.map asciiLower) = true)) := by
  refine ⟨rfl, ?_, ?_⟩
  · intro hX
    simp [search_movies, hX, List.mem_filter]
  · intro hX hW
    have hp : likePattern X = '%' :: (X.data ++ ['%']) := rfl
    simp [search_movies, hX, List.mem_filter, hp, likeMatch_pct_lit_pct X.data hW]

/-- Witness for `search_movies_correct`: concrete store, concrete filter. -/
theorem search_movies_correct_witness :
    inceptionMovie ∈ search_movies st1 "Incep" :=
  ((search_movies_correct st1 "Incep" inceptionMovie).2.2 (by decide) (by decide)).mpr
    ⟨by simp [st1], by decide⟩

/-- **C1 counterexample**: the claim's case-sensitive reading fails on the
code. On a store holding the title "Inception", the code's
`search_movies` with filter "incep" returns the record (SQLite LIKE folds
ASCII case), while the spec-worded case-sensitive search returns nothing. -/
theorem search_movies_case_counterexample :
    search_movies st1 "incep" = [inceptionMovie] ∧
      search_movies_spec st1 "incep" = [] := by
  constructor
  · decide
  · decide




/-- **C2** (confirmed). The single-record insert succeeds iff
`1.0 <= rating <= 10.0`; on success exactly the new row is appended, on a
validation failure nothing is written. -/
theorem add_movie_rating_bounds (st : Store) (t d g : String) (y : Int) (r : Rat) :
    ((add_movie st t d g y r).2 = true ↔ (1 : Rat) ≤ r ∧ r ≤ 10) ∧
    ((1 : Rat) ≤ r ∧ r ≤ 10 →
      (add_movie st t d g y r).1.records =
        st.records ++ [{ id := st.nextId, title := t, director := d, genre := g,
                         year := y, rating := some r }]) ∧
    (¬((1 : Rat) ≤ r ∧ r ≤ 10) → add_movie st t d g y r = (st, false)) := by
  by_cases hr : (1 : Rat) ≤ r ∧ r ≤ 10 <;> simp [add_movie, hr]

/-- Witness for `add_movie_rating_bounds`: the boundary ratings 1.0 and 10.0
are accepted, 0.99 and 10.01 are rejected with the store unchanged. -/
theorem add_movie_rating_bounds_witness :
    (add_movie st1 "T" "D" "G" 2000 1).2 = true ∧
    (add_movie st1 "T" "D" "G" 2000 10).2 = true ∧
    add_movie st1 "T" "D" "G" 2000 (99 / 100) = (st1, false) ∧
    add_movie st1 "T" "D" "G" 2000 (1001 / 100) = (st1, false) :=
  ⟨(add_movie_rating_bounds st1 "T" "D" "G" 2000 1).1.mpr (by norm_num),
   (add_movie_rating_bounds st1 "T" "D" "G" 2000 10).1.mpr (by norm_num),
   (add_movie_rating_bounds st1 "T" "D" "G" 2000 (99 / 100)).2.2 (by norm_num),
   (add_movie_rating_bounds st1 "T" "D" "G" 2000 (1001 / 100)).2.2 (by norm_num)⟩

/-- **C5** (confirmed). Deleting by ids removes exactly the records whose id
is in the given set (membership characterisation, all others untouched), and
delete-all leaves zero records. -/
theorem delete_movies_correct (st : Store) (ids : List Nat) (m : Movie) :
    (m ∈ (delete_by_ids st ids).records ↔ m ∈ st.records ∧ m.id ∉ ids) ∧
    (delete_all st).records = [] := by
  constructor
  · simp [delete_by_ids, List.mem_filter]
  · rfl

/-- **C6** (confirmed). When every update field is omitted, `modify_movie`
leaves the store unchanged and reports 未作任何修改 instead of updating. -/
theorem modify_movie_empty_noop (st : Store) (f : String) (u : UpdateFields)
    (m : Movie) (ms : List Movie)
    (hs : search_movies st f = m :: ms) (hu : u.isEmpty = true) :
    modify_movie st f u = (st, "未作任何修改") := by
  have hrat : u.rating = none := by
    cases hO : u.rating with
    | none => rfl
    | some v => exfalso; simp [UpdateFields.isEmpty, hO] at hu
  have hbad : ratingUpdateBad u = false := by simp [ratingUpdateBad, hrat]
  simp [modify_movie, hs, hbad, hu]

/-- Witness for `modify_movie_empty_noop` on a concrete store. -/
theorem modify_movie_empty_noop_witness :
    modify_movie st1 "Incep" ⟨none, none, none, none, none⟩ = (st1, "未作任何修改") :=
  modify_movie_empty_noop st1 "Incep" ⟨none, none, none, none, none⟩
    inceptionMovie [] (by decide) (by decide)

/-- **C4** (confirmed). A partial update rewrites exactly the targeted row
(the one whose id is the first match's id), and on any row, `applyUpdate`
changes precisely the supplied fields: every omitted field keeps its prior
value, and the id never changes; rows with a different id stay in the store
unchanged. -/
theorem modify_movie_partial_update (st : Store) (f : String) (u : UpdateFields)
    (m : Movie) (ms : List Movie) (r : Movie)
    (hs : search_movies st f = m :: ms)
    (hbad : ratingUpdateBad u = false) (hne : u.isEmpty = false) :
    ((modify_movie st f u).1.records =
      st.records.map (fun x => if x.id = m.id then applyUpdate u x else x)) ∧
    (u.title = none → (applyUpdate u r).title = r.title) ∧
    (u.director = none → (applyUpdate u r).director = r.director) ∧
    (u.genre = none → (applyUpdate u r).genre = r.genre) ∧
    (u.year = none → (applyUpdate u r).year = r.year) ∧
    (u.rating = none → (applyUpdate u r).rating = r.rating) ∧
    (∀ v, u.title = some v → (applyUpdate u r).title = v) ∧
    (∀ v, u.rating = some v → (applyUpdate u r).rating = some v) ∧
    ((applyUpdate u r).id = r.id) ∧
    (∀ x ∈ st.records, x.id ≠ m.id → x ∈ (modify_movie st f u).1.records) := by
  have hrec : (modify_movie st f u).1.records =
      st.records.map (fun x => if x.id = m.id then applyUpdate u x else x) := by
    simp [modify_movie, hs, hbad, hne]
  refine ⟨hrec, ?_, ?_, ?_, ?_, ?_, ?_, ?_, ?_, ?_⟩
  · intro h; simp [applyUpdate, h]
  · intro h; simp [applyUpdate, h]
  · intro h; simp [applyUpdate, h]
  · intro h; simp [applyUpdate, h]
  · intro h; simp [applyUpdate, h]
  · intro v h; simp [applyUpdate, h]
  · intro v h; simp [applyUpdate, h]
  · simp [applyUpdate]
  · intro x hx hne2
    rw [hrec]
    have : (fun y => if y.id = m.id then applyUpdate u y else y) x = x := by
      simp [hne2]
    exact this ▸ List.mem_map_of_mem _ hx

/-- Witness for `modify_movie_partial_update`: updating only the rating of
the example record. -/
theorem modify_movie_partial_update_witness :
    (modify_movie st1 "Incep" ⟨none, none, none, none, some 10⟩).1.records =
      st1.records.map (fun x => if x.id = inceptionMovie.id
        then applyUpdate ⟨none, none, none, none, some 10⟩ x else x) :=
  (modify_movie_partial_update st1 "Incep" ⟨none, none, none, none, some 10⟩
    inceptionMovie [] inceptionMovie (by decide) (by decide) (by decide)).1

lemma search_movies_sublist (st : Store) (f : String) :
    (search_movies st f).Sublist st.records := by
  unfold search_movies
  split
  · exact List.Sublist.refl _
  · exact List.filter_sublist _

/-- **C10** (confirmed). When the title filter matches several records, the
update is applied to the first record of the search result only: its updated
image is in the store, and every record with a different id — in particular
every other match — survives unchanged. -/
theorem modify_movie_first_match_only (st : Store) (f : String) (u : UpdateFields)
    (m1 : Movie) (ms : List Movie)
    (hs : search_movies st f = m1 :: ms)
    (hnd : (st.records.map Movie.id).Nodup)
    (hbad : ratingUpdateBad u = false) (hne : u.isEmpty = false) :
    applyUpdate u m1 ∈ (modify_movie st f u).1.records ∧
    (∀ x ∈ st.records, x.id ≠ m1.id → x ∈ (modify_movie st f u).1.records) ∧
    (∀ x ∈ ms, x.id ≠ m1.id ∧ x ∈ (modify_movie st f u).1.records) := by
  have hrec : (modify_movie st f u).1.records =
      st.records.map (fun x => if x.id = m1.id then applyUpdate u x else x) := by
    simp [modify_movie, hs, hbad, hne]
  have hsub : (m1 :: ms).Sublist st.records := hs ▸ search_movies_sublist st f
  have hm1 : m1 ∈ st.records := hsub.subset (List.mem_cons_self _ _)
  have hkeep : ∀ x ∈ st.records, x.id ≠ m1.id → x ∈ (modify_movie st f u).1.records := by
    intro x hx hne2
    rw [hrec]
    have : (fun y => if y.id = m1.id then applyUpdate u y else y) x = x := by
      simp [hne2]
    exact this ▸ List.mem_map_of_mem _ hx
  refine ⟨?_, hkeep, ?_⟩
  · rw [hrec]
    have : (fun y => if y.id = m1.id then applyUpdate u y else y) m1 = applyUpdate u m1 := by
      simp
    exact this ▸ List.mem_map_of_mem _ hm1
  · intro x hx
    have hndSearch : ((m1 :: ms).map Movie.id).Nodup :=
      hnd.sublist (hsub.map Movie.id)
    have hne3 : x.id ≠ m1.id := by
      have h1 : m1.id ∉ ms.map Movie.id := by
        have h2 : (m1.id :: ms.map Movie.id).Nodup := by simpa using hndSearch
        exact (List.nodup_cons.mp h2).1
      intro he
      exact h1 (he ▸ List.mem_map_of_mem Movie.id hx)
    exact ⟨hne3, hkeep x (hsub.subset (List.mem_cons_of_mem _ hx)) hne3⟩

/-- Witness for `modify_movie_first_match_only`: with two matches for
"Incep", the second match survives the update unchanged. -/
theorem modify_movie_first_match_only_witness :
    inceptionSequel.id ≠ inceptionMovie.id ∧
      inceptionSequel ∈ (modify_movie st2 "Incep" ⟨none, none, none, none, some 10⟩).1.records :=
  (modify_movie_first_match_only st2 "Incep" ⟨none, none, none, none, some 10⟩
    inceptionMovie [inceptionSequel] (by decide) (by decide) (by decide) (by decide)).2.2
    inceptionSequel (by decide)

lemma assignIds_keyTuples (rows : List ImportRow) :
    ∀ n, (assignIds n rows).map keyTuple = rows.map rowTuple := by
  induction rows with
  | nil => intro n; rfl
  | cons r rs ih => intro n; simp [assignIds, keyTuple, rowTuple, ih]

/-- **C3** (confirmed). Exporting a record set as a JSON document and
importing that document into an empty store reproduces the same multiset of
(title, director, genre, year, rating) tuples, ignoring ids. -/
theorem export_import_roundtrip (movies : List Movie)
    (hok : ∀ m ∈ movies, ratingCheckOk m.rating = true) :
    ((importRows { records := [], nextId := 1 }
        ((movies.map exportRow).map exportToImportRow)).records.map keyTuple).Perm
      (movies.map keyTuple) := by
  have hall : ((movies.map exportRow).map exportToImportRow).all
      (fun r => ratingCheckOk r.rating) = true := by
    rw [List.all_eq_true]
    intro r hr
    simp only [List.mem_map] at hr
    obtain ⟨e, ⟨m, hm, rfl⟩, rfl⟩ := hr
    exact hok m hm
  have hrec : (importRows { records := [], nextId := 1 }
      ((movies.map exportRow).map exportToImportRow)).records =
      assignIds 1 ((movies.map exportRow).map exportToImportRow) := by
    unfold importRows
    rw [if_pos hall]
    simp
  rw [hrec, assignIds_keyTuples, List.map_map, List.map_map]
  have : (rowTuple ∘ exportToImportRow) ∘ exportRow = keyTuple := by
    funext m; rfl
  rw [this]

/-- Witness for `export_import_roundtrip` on a concrete two-record set. -/
theorem export_import_roundtrip_witness :
    ((importRows { records := [], nextId := 1 }
        (([inceptionMovie, inceptionSequel].map exportRow).map exportToImportRow)).records.map
          keyTuple).Perm
      ([inceptionMovie, inceptionSequel].map keyTuple) :=
  export_import_roundtrip [inceptionMovie, inceptionSequel] (by decide)

/-- **C9 counterexample**: the schema does NOT make `rating` required. The
`rating` column of `create_table` carries no NOT NULL constraint, and a NULL
rating passes its CHECK, so a batch import whose JSON object has
`"rating": null` stores a record with an absent rating. -/
theorem import_null_rating_counterexample :
    ratingCheckOk none = true ∧
      (importRows { records := [], nextId := 1 }
          [{ title := "T", director := "D", genre := "G", year := 2000,
             rating := none }]).records =
        [{ id := 1, title := "T", director := "D", genre := "G", year := 2000,
           rating := none }] := by
  constructor
  · rfl
  · rfl

lemma mem_assignIds (m : Movie) (rows : List ImportRow) :
    ∀ n, m ∈ assignIds n rows → ∃ r ∈ rows, m.rating = r.rating := by
  induction rows with
  | nil => intro n h; cases h
  | cons r rs ih =>
    intro n h
    rcases List.mem_cons.mp h with h1 | h2
    · exact ⟨r, List.mem_cons_self _ _, by rw [h1]⟩
    · obtain ⟨r2, hr2, he⟩ := ih (n + 1) h2
      exact ⟨r2, List.mem_cons_of_mem _ hr2, he⟩

/-- **C9** (corrected). What the write paths really guarantee: every stored
rating is NULL or within [1.0, 10.0] — both the batch import (which enforces
only the CHECK constraint, accepting NULL) and the single insert (which
always writes a validated non-NULL rating) preserve this invariant. -/
theorem rating_invariant_preserved (st : Store) (rows : List ImportRow)
    (t d g : String) (y : Int) (r : Rat) (hinv : ratingInvariant st) :
    ratingInvariant (importRows st rows) ∧
      ratingInvariant (add_movie st t d g y r).1 := by
  constructor
  · intro m hm
    unfold importRows at hm
    by_cases hall : (rows.all fun x => ratingCheckOk x.rating) = true
    · rw [if_pos hall] at hm
      simp only at hm
      rcases List.mem_append.mp hm with h1 | h2
      · exact hinv m h1
      · obtain ⟨row, hrow, he⟩ := mem_assignIds m rows st.nextId h2
        rw [he]
        exact List.all_eq_true.mp hall row hrow
    · rw [if_neg hall] at hm
      exact hinv m hm
  · intro m hm
    unfold add_movie at hm
    by_cases hr : (1 : Rat) ≤ r ∧ r ≤ 10
    · rw [if_pos hr] at hm
      simp only at hm
      rcases List.mem_append.mp hm with h1 | h2
      · exact hinv m h1
      · have : m.rating = some r := by
          simp only [List.mem_singleton] at h2
          rw [h2]
        rw [this]
        simp [ratingCheckOk, hr]
    · rw [if_neg hr] at hm
      exact hinv m hm

/-- Witness for `rating_invariant_preserved` on concrete inputs (a NULL
rating import into the example store, and an integer-rated insert). -/
theorem rating_invariant_preserved_witness :
    ratingInvariant (importRows st1
      [{ title := "T", director := "D", genre := "G", year := 2000,
         rating := none }]) ∧
      ratingInvariant (add_movie st1 "T" "D" "G" 2000 5).1 :=
  rating_invariant_preserved st1
    [{ title := "T", director := "D", genre := "G", year := 2000, rating := none }]
    "T" "D" "G" 2000 5 (by unfold ratingInvariant; decide)

/-- **C7** (confirmed). Display width counts 2 for each East-Asian F/W/A
character and 1 otherwise: `displayWidth("A") = 1`, `displayWidth("中") = 2`,
`displayWidth("A中B") = 4`; `pad("中", 4)` is "中" plus exactly two spaces;
and a text whose width already meets or exceeds the target is returned
unchanged (no truncation). -/
theorem display_width_pad (s : String) (w : Nat) :
    get_display_width "A" = 1 ∧
    get_display_width "中" = 2 ∧
    get_display_width "A中B" = 4 ∧
    pad_string "中" 4 = "中  " ∧
    (w ≤ get_display_width s → pad_string s w = s) := by
  refine ⟨by decide, by decide, by decide, by decide, ?_⟩
  intro h
  unfold pad_string
  rw [Nat.sub_eq_zero_of_le h]
  cases s with
  | mk l =>
    show String.mk (l ++ []) = String.mk l
    rw [List.append_nil]

/-- Witness for `display_width_pad`: a string already wider than the target
is returned unchanged. -/
theorem display_width_pad_witness : pad_string "Hello" 3 = "Hello" :=
  (display_width_pad "Hello" 3).2.2.2.2 (by decide)

/-- **C8 counterexample**: export does not write for every record sequence.
With an empty store the export fetches an empty sequence, prints 查無資料
and writes nothing: the output path stays absent instead of holding a JSON
document. -/
theorem export_empty_counterexample :
    (export_movies emptyFs { records := [], nextId := 1 } "").1 JSON_OUT_PATH = none ∧
      (export_movies emptyFs { records := [], nextId := 1 } "").2 = "查無資料" := by
  constructor
  · rfl
  · rfl

lemma escapeChars_id (l : List Char)
    (h : ∀ c ∈ l, c ≠ '"' ∧ c ≠ '\\' ∧ 32 ≤ c.toNat) : escapeChars l = l := by
  induction l with
  | nil => rfl
  | cons c cs ih =>
    have hc := h c (List.mem_cons_self _ _)
    have h10 : ¬(c = '\n') := fun he => by subst he; revert hc; decide
    have h9 : ¬(c = '\t') := fun he => by subst he; revert hc; decide
    have h13 : ¬(c = '\r') := fun he => by subst he; revert hc; decide
    have h8 : ¬(c = Char.ofNat 8) := fun he => by
      subst he; revert hc; decide
    have h12 : ¬(c = Char.ofNat 12) := fun he => by
      subst he; revert hc; decide
    have hlt : ¬(c.toNat < 32) := Nat.not_lt.mpr hc.2.2
    have hesc : jsonEscapeChar c = String.singleton c := by
      unfold jsonEscapeChar
      rw [if_neg hc.1, if_neg hc.2.1, if_neg h10, if_neg h9, if_neg h13,
        if_neg h8, if_neg h12, if_neg hlt]
    show (jsonEscapeChar c).data ++ escapeChars cs = c :: cs
    rw [hesc, ih (fun x hx => h x (List.mem_cons_of_mem _ hx))]
    rfl

/-- **C8** (corrected). When the fetched record sequence is non-empty, the
export overwrites the output path with the indented JSON serialization of
the sequence (any other path is untouched); every serialized object carries
exactly the six keys id, title, director, genre, year, rating in order; and
the string serialization preserves every character other than `"`, `\` and
control characters literally — in particular all non-ASCII text. (The claim
fails only for the empty sequence, where nothing is written.) -/
theorem export_movies_writes (fs : FileMap) (st : Store) (title q : String)
    (hne : search_movies st title ≠ []) :
    ((export_movies fs st title).1 JSON_OUT_PATH =
      some (serializeExport ((search_movies st title).map exportRow))) ∧
    (q ≠ JSON_OUT_PATH → (export_movies fs st title).1 q = fs q) ∧
    (∀ e : ExportRow, (exportRowFields e).map Prod.fst =
      ["id", "title", "director", "genre", "year", "rating"]) ∧
    (∀ s : String, (∀ c ∈ s.data, c ≠ '"' ∧ c ≠ '\\' ∧ 32 ≤ c.toNat) →
      jsonEscapeString s = s) := by
  refine ⟨?_, ?_, ?_, ?_⟩
  · simp [export_movies, hne, setFile]
  · intro hq
    simp [export_movies, hne, setFile, hq]
  · intro e
    rfl
  · intro s hs
    unfold jsonEscapeString
    rw [escapeChars_id s.data hs]

/-- Witness for `export_movies_writes`: exporting a store whose record has
CJK text writes the serialized document to `exported.json`. -/
theorem export_movies_writes_witness :
    (export_movies emptyFs cjkStore "").1 JSON_OUT_PATH =
      some (serializeExport ((search_movies cjkStore "").map exportRow)) :=
  (export_movies_writes emptyFs cjkStore "" "other" (by decide)).1
